import Mathlib

/-!
Shallow embedding of the DAG-building Matrix facade of the daphne Python API
(`src/api/python/daphne/operator/nodes/matrix.py`), together with proofs about
the claims of the specification.

Nodes of the operator DAG are modelled as records; the graph (needed for the
in-place indexed-assignment rewrite of `__setitem__`) is an arena of nodes
addressed by natural-number ids, matching the spec's arena design note.
Python values that can appear in a node's unnamed input list are modelled by
the inductive `Value`; indexing-key components by `PyIndex`.
-/

namespace Daphne

/-- Output kind of a DAG node (`OutputType` in `script_building/dag.py`). -/
inductive OutputType where
  | MATRIX
  | SCALAR
  | FRAME
  | NONE
deriving DecidableEq, Repr, Inhabited

/-- A value appearing in a node's unnamed input list: a node reference
(by arena id), an integer literal, a string literal, or a boolean literal. -/
inductive Value where
  | vnode : Nat → Value
  | vint : Int → Value
  | vstr : String → Value
  | vbool : Bool → Value
deriving DecidableEq, Repr, Inhabited

/-- One DAG node: the operator tag (`None` for pure bracket indexing),
the ordered unnamed inputs, the output kind, the two bracket flags, and the
consumer back-references (arena ids of nodes that take this node as input). -/
structure Node where
  operation : Option String
  inputs : List Value
  outputType : OutputType
  isBrackets : Bool
  isLeftBrackets : Bool
  consumers : List Nat
deriving DecidableEq, Repr, Inhabited

/-- Node produced by `Matrix(ctx, op, inputs)`: a Matrix-kind node with no
bracket flags and an initially empty consumer list. -/
def matrixNode (op : String) (ins : List Value) : Node :=
  { operation := some op, inputs := ins, outputType := OutputType.MATRIX,
    isBrackets := false, isLeftBrackets := false, consumers := [] }

/-- Node produced by `Scalar(ctx, op, inputs)`: a Scalar-kind node. -/
def scalarNode (op : String) (ins : List Value) : Node :=
  { operation := some op, inputs := ins, outputType := OutputType.SCALAR,
    isBrackets := false, isLeftBrackets := false, consumers := [] }

/-- Node produced by `Frame(ctx, op, inputs)`: a Frame-kind node. -/
def frameNode (op : String) (ins : List Value) : Node :=
  { operation := some op, inputs := ins, outputType := OutputType.FRAME,
    isBrackets := false, isLeftBrackets := false, consumers := [] }

namespace Matrix

/-- `Matrix.sum`: axis omitted (`None`) gives a Scalar node, axis given gives a
Matrix node with inputs `[self, axis]`. -/
def sum (s : Nat) (axis : Option Int) : Node :=
  match axis with
  | none => scalarNode "sum" [Value.vnode s]
  | some a => matrixNode "sum" [Value.vnode s, Value.vint a]

/-- `Matrix.aggMin`: axis given gives a Matrix node with inputs `[self, axis]`,
axis omitted gives a Scalar node. -/
def aggMin (s : Nat) (axis : Option Int) : Node :=
  match axis with
  | some a => matrixNode "aggMin" [Value.vnode s, Value.vint a]
  | none => scalarNode "aggMin" [Value.vnode s]

/-- `Matrix.aggMax`. -/
def aggMax (s : Nat) (axis : Option Int) : Node :=
  match axis with
  | some a => matrixNode "aggMax" [Value.vnode s, Value.vint a]
  | none => scalarNode "aggMax" [Value.vnode s]

/-- `Matrix.mean`. -/
def mean (s : Nat) (axis : Option Int) : Node :=
  match axis with
  | some a => matrixNode "mean" [Value.vnode s, Value.vint a]
  | none => scalarNode "mean" [Value.vnode s]

/-- `Matrix.var`. -/
def var (s : Nat) (axis : Option Int) : Node :=
  match axis with
  | some a => matrixNode "var" [Value.vnode s, Value.vint a]
  | none => scalarNode "var" [Value.vnode s]

/-- `Matrix.stddev`. -/
def stddev (s : Nat) (axis : Option Int) : Node :=
  match axis with
  | some a => matrixNode "stddev" [Value.vnode s, Value.vint a]
  | none => scalarNode "stddev" [Value.vnode s]

/-- `Matrix.idxMin`: raises a `RuntimeError` when `axis` is `None`, otherwise
builds a Scalar node with inputs `[self, axis]`. -/
def idxMin (s : Nat) (axis : Option Int) : Except String Node :=
  match axis with
  | none => Except.error "parameter axis must be provided for idxMin"
  | some a => Except.ok (scalarNode "idxMin" [Value.vnode s, Value.vint a])

/-- `Matrix.idxMax`: raises a `RuntimeError` when `axis` is `None`, otherwise
builds a Scalar node with inputs `[self, axis]`. -/
def idxMax (s : Nat) (axis : Option Int) : Except String Node :=
  match axis with
  | none => Except.error "parameter axis must be provided for idxMax"
  | some a => Except.ok (scalarNode "idxMax" [Value.vnode s, Value.vint a])

end Matrix

/-! ### Indexing keys -/

/-- One component of an indexing key, as a Python value: an `int`, a `slice`
(with optional `start` and `stop`), a `Matrix` node, or a `str` (the
representative of a component that is none of the accepted types). -/
inductive PyIndex where
  | pint : Int → PyIndex
  | pslice : Option Int → Option Int → PyIndex
  | pnode : Nat → PyIndex
  | pother : String → PyIndex
deriving DecidableEq, Repr, Inhabited

/-- A key passed to `[]`: either a Python tuple of components, or a single
non-tuple value. -/
inductive PyKey where
  | tuple : List PyIndex → PyKey
  | single : PyIndex → PyKey
deriving DecidableEq, Repr, Inhabited

/-- `isinstance(k, slice) or isinstance(k, int)`. -/
def PyIndex.isIntOrSlice : PyIndex → Bool
  | .pint _ => true
  | .pslice _ _ => true
  | _ => false

/-- `isinstance(k, Matrix)`. -/
def PyIndex.isMatrix : PyIndex → Bool
  | .pnode _ => true
  | _ => false

/-- The slicing string built for a `slice` component:
`(f-string of start if not None else empty) + ":" + (same for stop)`. -/
def sliceStr (start stop : Option Int) : String :=
  (match start with | some v => toString v | none => "") ++ ":"
    ++ (match stop with | some v => toString v | none => "")

/-- The row/column index expression passed as an input of the bracket node:
slices become their slicing string, other components pass through unchanged. -/
def encodeIndex : PyIndex → Value
  | .pint i => Value.vint i
  | .pslice a b => Value.vstr (sliceStr a b)
  | .pnode i => Value.vnode i
  | .pother s => Value.vstr s

/-- Truthiness of a Python tuple, given the truth values of its elements: a
tuple is truthy exactly when it is nonempty, regardless of its contents. -/
def pyTupleTruthy (l : List Bool) : Bool := !l.isEmpty

/-- `Matrix.__getitem__`. The component-type guard in the source is
`not (isinstance(k, slice) or isinstance(k, int), isinstance(k, Matrix))`:
`not` applied to a two-element tuple, which Python evaluates by the tuple's
truthiness. The embedding keeps that shape via `pyTupleTruthy`. On success the
result is a Matrix node with `operation=None`, `brackets=True` and inputs
`[self, row_index, column_index]`. -/
def Matrix.getitem (s : Nat) : PyKey → Except String Node
  | .tuple [k0, k1] =>
    if !pyTupleTruthy [k0.isIntOrSlice, k0.isMatrix]
        || !pyTupleTruthy [k1.isIntOrSlice, k1.isMatrix] then
      Except.error "keys must be an integer, slice or Matrix"
    else
      Except.ok { operation := none,
                  inputs := [Value.vnode s, encodeIndex k0, encodeIndex k1],
                  outputType := OutputType.MATRIX,
                  isBrackets := true, isLeftBrackets := false, consumers := [] }
  | _ => Except.error "you must specify exactly two dimensions"

/-- Key validation and index encoding of `Matrix.__setitem__`: the key must be
a two-element tuple and each component must be an `int` or a `slice`. -/
def validateWriteKey : PyKey → Except String (Value × Value)
  | .tuple [k0, k1] =>
    if !k0.isIntOrSlice || !k1.isIntOrSlice then
      Except.error "keys must be an integer or a slice"
    else
      Except.ok (encodeIndex k0, encodeIndex k1)
  | _ => Except.error "you must specify exactly two dimensions"

/-! ### Comparison operators -/

namespace Matrix

/-- `Matrix.__lt__`. -/
def lt (s : Nat) (other : Value) : Node := matrixNode "<" [Value.vnode s, other]

/-- `Matrix.__rlt__`. -/
def rlt (s : Nat) (other : Value) : Node := matrixNode "<" [other, Value.vnode s]

/-- `Matrix.__le__`. -/
def le (s : Nat) (other : Value) : Node := matrixNode "<=" [Value.vnode s, other]

/-- `Matrix.__rle__`. -/
def rle (s : Nat) (other : Value) : Node := matrixNode "<=" [other, Value.vnode s]

/-- `Matrix.__gt__`. -/
def gt (s : Nat) (other : Value) : Node := matrixNode ">" [Value.vnode s, other]

/-- `Matrix.__rgt__`. -/
def rgt (s : Nat) (other : Value) : Node := matrixNode ">" [other, Value.vnode s]

/-- `Matrix.__ge__`. -/
def ge (s : Nat) (other : Value) : Node := matrixNode ">=" [Value.vnode s, other]

/-- `Matrix.__rge__`. The source tags this node with the string
`">= "` — note the trailing space. -/
def rge (s : Nat) (other : Value) : Node := matrixNode ">= " [other, Value.vnode s]

/-- `Matrix.__eq__`. -/
def eq (s : Nat) (other : Value) : Node := matrixNode "==" [Value.vnode s, other]

/-- `Matrix.__req__`. -/
def req (s : Nat) (other : Value) : Node := matrixNode "==" [other, Value.vnode s]

/-- `Matrix.__ne__`. -/
def ne (s : Nat) (other : Value) : Node := matrixNode "!=" [Value.vnode s, other]

/-- `Matrix.__rne__`. -/
def rne (s : Nat) (other : Value) : Node := matrixNode "!=" [other, Value.vnode s]

/-! ### asType, bin, order -/

/-- `Matrix.asType`: dispatch on the optional target data type and value
type, producing a node of the facade matching the data type (Matrix when only
a value type is given) tagged with the cast-operator name. -/
def asType (s : Nat) (dtype vtype : Option String) : Except String Node :=
  match dtype, vtype with
  | none, none =>
    Except.error "you must specify the target data type and/or value type"
  | some dt, none =>
    if dt = "matrix" then Except.ok (matrixNode ("as." ++ dt) [Value.vnode s])
    else if dt = "frame" then Except.ok (frameNode ("as." ++ dt) [Value.vnode s])
    else if dt = "scalar" then Except.ok (scalarNode ("as." ++ dt) [Value.vnode s])
    else Except.error "invalid data type: use matrix, frame, or scalar"
  | none, some vt =>
    Except.ok (matrixNode ("as." ++ vt) [Value.vnode s])
  | some dt, some vt =>
    if dt = "matrix" then
      Except.ok (matrixNode ("as." ++ dt ++ "<" ++ vt ++ ">") [Value.vnode s])
    else if dt = "frame" then
      Except.ok (frameNode ("as." ++ dt ++ "<" ++ vt ++ ">") [Value.vnode s])
    else if dt = "scalar" then
      Except.ok (scalarNode ("as." ++ dt ++ "<" ++ vt ++ ">") [Value.vnode s])
    else Except.error "invalid data type: use matrix, frame, or scalar"

/-- Python truthiness of the optional numeric arguments of `bin` (`None` and
`0` are falsy, every other integer is truthy). -/
def pyTruthyOptInt : Option Int → Bool
  | none => false
  | some v => decide (v ≠ 0)

/-- `Matrix.bin`: raises when exactly one of `Min` and `Max` is `None`; when
`Max and Min` is truthy the node's inputs are `[self, numBins, Min, Max]`,
otherwise `[self, numBins]`. -/
def bin (s : Nat) (numBins : Int) (mn mx : Option Int) : Except String Node :=
  if (mx = none ∧ mn ≠ none) ∨ (mn = none ∧ mx ≠ none) then
    Except.error "bin: both min and max should be set, or both should be None"
  else if pyTruthyOptInt mx && pyTruthyOptInt mn then
    Except.ok (matrixNode "bin"
      [Value.vnode s, Value.vint numBins,
       Value.vint (mn.getD 0), Value.vint (mx.getD 0)])
  else
    Except.ok (matrixNode "bin" [Value.vnode s, Value.vint numBins])

/-- `Matrix.order`: raises when `colIdxs` and `ascs` have different lengths;
otherwise the node's inputs are `[self, *colIdxs, *ascs, returnIndexes]`. -/
def order (s : Nat) (colIdxs : List Int) (ascs : List Bool)
    (returnIndexes : Bool) : Except String Node :=
  if colIdxs.length ≠ ascs.length then
    Except.error
      "order: the lists given for parameters colIdxs and ascs must have the same length"
  else
    Except.ok (matrixNode "order"
      (Value.vnode s :: (colIdxs.map Value.vint ++ ascs.map Value.vbool
        ++ [Value.vbool returnIndexes])))

end Matrix

/-! ### Local data staging (`Matrix.code_line` for `readMatrix` nodes)

Element dtypes of the local numpy array are modelled abstractly: one
constructor per dtype object the source compares against with `==`
(`np.dtype('float32')`, ..., `np.dtype('S')`, `np.dtype('U')`), one for the
object dtype, and `other` for every remaining dtype, carrying its kind
character and name. Dtype equality is constructor equality. -/

/-- A numpy element dtype, at the granularity the source distinguishes. -/
inductive NpDtype where
  | float32
  | float64
  | int16
  | int32
  | int64
  | uint8
  | uint16
  | uint32
  | uint64
  | bytesS
  | unicodeU
  | objectO
  | other : Char → String → NpDtype
deriving DecidableEq, Repr

/-- `dtype.kind`: the numpy kind character of the dtype. -/
def NpDtype.kind : NpDtype → Char
  | .float32 => 'f'
  | .float64 => 'f'
  | .int16 => 'i'
  | .int32 => 'i'
  | .int64 => 'i'
  | .uint8 => 'u'
  | .uint16 => 'u'
  | .uint32 => 'u'
  | .uint64 => 'u'
  | .bytesS => 'S'
  | .unicodeU => 'U'
  | .objectO => 'O'
  | .other k _ => k

/-- `Matrix.getDType`: the chain of dtype comparisons mapping an element
dtype to the engine value-type tag. -/
def getDType (d : NpDtype) : String :=
  if d = NpDtype.float32 then "f32"
  else if d = NpDtype.float64 then "f64"
  else if d = NpDtype.int16 then "si16"
  else if d = NpDtype.int32 then "si32"
  else if d = NpDtype.int64 then "si64"
  else if d = NpDtype.uint8 then "ui8"
  else if d = NpDtype.uint16 then "ui16"
  else if d = NpDtype.uint32 then "ui32"
  else if d = NpDtype.uint64 then "ui64"
  else if d = NpDtype.bytesS ∨ d = NpDtype.unicodeU then "str"
  else "object"

/-- How the array payload is rendered into the data file. -/
inductive StageFormat where
  | jsonDump
  | csvCommaNoHeader
deriving DecidableEq, Repr

/-- The metadata sidecar: a JSON object with exactly the keys
`numRows`, `numCols`, `valueType`. -/
structure MetaFile where
  numRows : Nat
  numCols : Nat
  valueType : String
deriving DecidableEq, Repr

/-- The files written when a `readMatrix` node holding local numpy data is
emitted: data-file path and format, and sidecar path and content. -/
structure StagedFiles where
  dataPath : String
  format : StageFormat
  metaPath : String
  meta : MetaFile
deriving DecidableEq, Repr

/-- Staging step of `Matrix.code_line` for a local numpy array of shape
`rows × cols` with element dtype `d`: dtype kind in `{U, S, O}` takes the JSON
path (`<tmp>/<var>.json` plus `<tmp>/<var>.json.meta`), every other kind takes
the CSV path (`<tmp>/<var>.csv` plus `<tmp>/<var>.csv.meta`,
comma-delimited via `np.savetxt`, no header); both sidecars hold
`{numRows, numCols, valueType}` with `valueType = getDType d`. -/
def stageLocalData (tmpPath varName : String) (rows cols : Nat)
    (d : NpDtype) : StagedFiles :=
  if d.kind = 'U' ∨ d.kind = 'S' ∨ d.kind = 'O' then
    { dataPath := tmpPath ++ "/" ++ varName ++ ".json",
      format := StageFormat.jsonDump,
      metaPath := tmpPath ++ "/" ++ varName ++ ".json.meta",
      meta := { numRows := rows, numCols := cols, valueType := getDType d } }
  else
    { dataPath := tmpPath ++ "/" ++ varName ++ ".csv",
      format := StageFormat.csvCommaNoHeader,
      metaPath := tmpPath ++ "/" ++ varName ++ ".csv.meta",
      meta := { numRows := rows, numCols := cols, valueType := getDType d } }

/-! ### The node arena and the in-place indexed-assignment rewrite

`__setitem__` mutates the DAG, so it is modelled as a function on an arena of
nodes addressed by ids (the spec's arena design note): a user-visible `Matrix`
handle is an id, and the rewrite swaps the contents of the handle's slot. -/

/-- The node arena: slot `i` holds the state of the node with id `i`. -/
structure Graph where
  nodes : List Node
deriving DecidableEq, Repr

/-- Read the state of node `i` (default node if `i` is out of range). -/
def Graph.get (g : Graph) (i : Nat) : Node := (g.nodes[i]?).getD default

/-- Overwrite the state of node `i` in place. -/
def Graph.set (g : Graph) (i : Nat) (x : Node) : Graph := ⟨g.nodes.set i x⟩

/-- Modelled from the spec: `OperationNode.update_node_in_input_list(new, old)`
(defined outside the analyzed slice) redirects a consumer's input references —
every input reference to node `old` is replaced by a reference to node
`new`; non-node inputs and inputs referencing other nodes are untouched. -/
def Node.updateInput (c : Node) (newId oldId : Nat) : Node :=
  { c with inputs := c.inputs.map (fun v =>
      if v = Value.vnode oldId then Value.vnode newId else v) }

/-- Appending a consumer id to a node's `consumer_list`. -/
def Node.addConsumer (x : Node) (c : Nat) : Node :=
  { x with consumers := x.consumers ++ [c] }

/-- Whether a value is a reference to a DAG node. -/
def Value.isNodeRef : Value → Bool
  | .vnode _ => true
  | _ => false

/-- Modelled from the spec: the node constructor registers the freshly built
node (id `c`) as a consumer of each of its node-valued inputs, in input
order, appending it to their `consumer_list`; literal inputs register
nothing. -/
def registerConsumers (g : Graph) (c : Nat) : List Value → Graph
  | [] => g
  | Value.vnode i :: rest =>
    registerConsumers (g.set i ((g.get i).addConsumer c)) c rest
  | _ :: rest => registerConsumers g c rest

/-- One iteration of the consumer loop of `__setitem__`:
`consumer.update_node_in_input_list(new_node, self)` for consumer id `c`,
where `n` is the shadow's id and `a` the id of the node being assigned. -/
def redirectStep (n a : Nat) (gg : Graph) (c : Nat) : Graph :=
  gg.set c ((gg.get c).updateInput n a)

/-- The graph transformation performed by `Matrix.__setitem__` after key
validation, with `ri`/`ci` the already-encoded row and column index
expressions: allocate the shadow predecessor, redirect the consumers, build
the left-brackets node — whose construction registers the handle as a
consumer of each of its node-valued inputs, i.e. the shadow and, when the
assigned value is itself a node, that node — and swap it into the handle's
slot. -/
def setitemRewrite (g : Graph) (a : Nat) (value ri ci : Value) : Graph :=
  let old := g.get a
  let n := g.nodes.length
  let g1 : Graph := ⟨g.nodes ++ [old]⟩
  let g2 := old.consumers.foldl (redirectStep n a) g1
  let g3 := registerConsumers g2 a [Value.vnode n, value, ri, ci]
  g3.set a
    { operation := none,
      inputs := [Value.vnode n, value, ri, ci],
      outputType := OutputType.MATRIX,
      isBrackets := false, isLeftBrackets := true, consumers := [] }

/-- `Matrix.__setitem__` on the arena: after validating the key,
(1) `new_node = copy.deepcopy(self)` allocates a fresh slot (id = old arena
size) holding a copy of node `a`'s state — the shadow predecessor;
(2) every consumer in `a`'s consumer list has its input references redirected
from `a` to the shadow;
(3) node `a`'s slot is overwritten with the state of a freshly constructed
left-brackets Matrix node (`operation=None`, `left_brackets=True`) with inputs
`[shadow, value, row_index, column_index]`; building that node registers the
handle as a consumer of each of its node-valued inputs: the shadow and, when
`value` is a node, that node. -/
def Matrix.setitem (g : Graph) (a : Nat) (key : PyKey) (value : Value) :
    Except String Graph :=
  match validateWriteKey key with
  | Except.error e => Except.error e
  | Except.ok (ri, ci) => Except.ok (setitemRewrite g a value ri ci)

/-! ### Arena lemmas -/

theorem Graph.length_set (g : Graph) (i : Nat) (x : Node) :
    (g.set i x).nodes.length = g.nodes.length := by
  simp [Graph.set]

theorem Graph.get_set_self (g : Graph) (i : Nat) (x : Node)
    (h : i < g.nodes.length) : (g.set i x).get i = x := by
  simp [Graph.set, Graph.get, List.getElem?_set_eq_of_lt _ h]

theorem Graph.get_set_ne (g : Graph) (i j : Nat) (x : Node) (h : i ≠ j) :
    (g.set i x).get j = g.get j := by
  simp [Graph.set, Graph.get, List.getElem?_set_ne (h := h)]

theorem Graph.get_append_lt (g : Graph) (x : Node) (i : Nat)
    (h : i < g.nodes.length) :
    (Graph.mk (g.nodes ++ [x])).get i = g.get i := by
  simp [Graph.get, List.getElem?_append, h]

theorem Graph.get_append_last (g : Graph) (x : Node) :
    (Graph.mk (g.nodes ++ [x])).get g.nodes.length = x := by
  simp [Graph.get]

theorem redirectStep_length (n a : Nat) (g : Graph) (c : Nat) :
    (redirectStep n a g c).nodes.length = g.nodes.length :=
  Graph.length_set g c ((g.get c).updateInput n a)

/-- Redirecting input references twice is the same as once (the shadow id `n`
is never the assigned id `a`). -/
theorem Node.updateInput_idem (x : Node) (n a : Nat) (h : n ≠ a) :
    (x.updateInput n a).updateInput n a = x.updateInput n a := by
  simp only [Node.updateInput, List.map_map, Node.mk.injEq, true_and, and_true]
  apply List.map_congr_left
  intro v _
  by_cases hv : v = Value.vnode a <;> simp [Function.comp, hv, h]

theorem redirect_fold_length (n a : Nat) (cs : List Nat) (g : Graph) :
    (cs.foldl (redirectStep n a) g).nodes.length = g.nodes.length := by
  induction cs generalizing g with
  | nil => rfl
  | cons c cs ih => rw [List.foldl_cons, ih, redirectStep_length]

theorem redirect_fold_get_notmem (n a : Nat) (cs : List Nat) (g : Graph)
    (i : Nat) (hi : i ∉ cs) :
    (cs.foldl (redirectStep n a) g).get i = g.get i := by
  induction cs generalizing g with
  | nil => rfl
  | cons c cs ih =>
    have hic : c ≠ i := fun hh => hi (hh ▸ List.mem_cons_self c cs)
    rw [List.foldl_cons, ih _ (fun hh => hi (List.mem_cons_of_mem _ hh))]
    exact Graph.get_set_ne _ _ _ _ hic

/-- The consumer loop applies `update_node_in_input_list` to every node whose
id occurs in the consumer list, and touches no other slot. -/
theorem redirect_fold_get_mem (n a : Nat) (h : n ≠ a) (cs : List Nat)
    (g : Graph) (i : Nat) (hmem : i ∈ cs) (hlt : i < g.nodes.length) :
    (cs.foldl (redirectStep n a) g).get i = (g.get i).updateInput n a := by
  induction cs generalizing g with
  | nil => cases hmem
  | cons c cs ih =>
    rw [List.foldl_cons]
    by_cases hic : i = c
    · subst hic
      have hstep : (redirectStep n a g i).get i = (g.get i).updateInput n a :=
        Graph.get_set_self _ _ _ hlt
      by_cases hmem2 : i ∈ cs
      · rw [ih _ hmem2 (by rw [redirectStep_length]; exact hlt), hstep]
        exact Node.updateInput_idem _ _ _ h
      · rw [redirect_fold_get_notmem _ _ _ _ _ hmem2, hstep]
    · have hmem2 : i ∈ cs := by
        rcases List.mem_cons.mp hmem with hh | hh
        · exact absurd hh hic
        · exact hh
      rw [ih _ hmem2 (by rw [redirectStep_length]; exact hlt)]
      have hstep : (redirectStep n a g c).get i = g.get i :=
        Graph.get_set_ne _ _ _ _ (fun hh => hic hh.symm)
      rw [hstep]

/-! ## Claim theorems -/

/-- C2 (counterexample): the claim states that every axis-aware aggregate,
`idxMin` included, yields a Matrix-kind node when an axis is given; but
`Matrix.idxMin` with axis 0 yields a Scalar-kind node, and Scalar-kind is not
Matrix-kind. -/
theorem C2_idxMin_axis_counterexample :
    (Matrix.idxMin 0 (some 0)).map Node.outputType =
      Except.ok OutputType.SCALAR
      ∧ OutputType.SCALAR ≠ OutputType.MATRIX :=
  ⟨rfl, by decide⟩

/-- C2 (amended): for `sum`, `aggMin`, `aggMax`, `mean`, `var` and `stddev`,
axis omitted yields a Scalar-kind node whose operation tag is the method name
with the receiver as sole input, and axis given yields a Matrix-kind node with
inputs `[receiver, axis]`; for `idxMin` and `idxMax`, axis omitted raises an
error and axis given yields a Scalar-kind node with inputs
`[receiver, axis]`. -/
theorem C2_axis_aware_aggregates (s : Nat) (ax : Int) :
    Matrix.sum s none = scalarNode "sum" [Value.vnode s]
    ∧ Matrix.sum s (some ax) = matrixNode "sum" [Value.vnode s, Value.vint ax]
    ∧ Matrix.aggMin s none = scalarNode "aggMin" [Value.vnode s]
    ∧ Matrix.aggMin s (some ax)
        = matrixNode "aggMin" [Value.vnode s, Value.vint ax]
    ∧ Matrix.aggMax s none = scalarNode "aggMax" [Value.vnode s]
    ∧ Matrix.aggMax s (some ax)
        = matrixNode "aggMax" [Value.vnode s, Value.vint ax]
    ∧ Matrix.mean s none = scalarNode "mean" [Value.vnode s]
    ∧ Matrix.mean s (some ax)
        = matrixNode "mean" [Value.vnode s, Value.vint ax]
    ∧ Matrix.var s none = scalarNode "var" [Value.vnode s]
    ∧ Matrix.var s (some ax)
        = matrixNode "var" [Value.vnode s, Value.vint ax]
    ∧ Matrix.stddev s none = scalarNode "stddev" [Value.vnode s]
    ∧ Matrix.stddev s (some ax)
        = matrixNode "stddev" [Value.vnode s, Value.vint ax]
    ∧ Matrix.idxMin s none
        = Except.error "parameter axis must be provided for idxMin"
    ∧ Matrix.idxMin s (some ax)
        = Except.ok (scalarNode "idxMin" [Value.vnode s, Value.vint ax])
    ∧ Matrix.idxMax s none
        = Except.error "parameter axis must be provided for idxMax"
    ∧ Matrix.idxMax s (some ax)
        = Except.ok (scalarNode "idxMax" [Value.vnode s, Value.vint ax]) :=
  ⟨rfl, rfl, rfl, rfl, rfl, rfl, rfl, rfl, rfl, rfl, rfl, rfl, rfl, rfl,
    rfl, rfl⟩

/-- C5: calling `idxMin` or `idxMax` with axis `None` raises the
parameter-missing error; in the `Except` embedding the error carries no node,
so no DAG node is constructed and the graph is untouched. -/
theorem C5_idx_requires_axis (s : Nat) :
    Matrix.idxMin s none
      = Except.error "parameter axis must be provided for idxMin"
    ∧ Matrix.idxMax s none
      = Except.error "parameter axis must be provided for idxMax" :=
  ⟨rfl, rfl⟩

/-- C4: reading `M[k0, k1]` with components that are each an integer, a slice
or a Matrix node produces a Matrix node with operation tag `None`,
`is_brackets=true` and inputs `[receiver, row-index, col-index]`, slices
encoded via `encodeIndex` as the string `start:stop` with omitted bounds
rendered empty. -/
theorem C4_getitem_bracket_node (s : Nat) (k0 k1 : PyIndex)
    (h0 : k0.isIntOrSlice = true ∨ k0.isMatrix = true)
    (h1 : k1.isIntOrSlice = true ∨ k1.isMatrix = true) :
    Matrix.getitem s (PyKey.tuple [k0, k1]) =
      Except.ok { operation := none,
                  inputs := [Value.vnode s, encodeIndex k0, encodeIndex k1],
                  outputType := OutputType.MATRIX,
                  isBrackets := true, isLeftBrackets := false,
                  consumers := [] } := by
  simp [Matrix.getitem, pyTupleTruthy]

/-- C4 witness: `M[1:3, 0]` yields row-index string `"1:3"` and column-index
literal `0`. -/
theorem C4_getitem_bracket_node_witness :
    ((PyIndex.pslice (some 1) (some 3)).isIntOrSlice = true
        ∨ (PyIndex.pslice (some 1) (some 3)).isMatrix = true)
    ∧ ((PyIndex.pint 0).isIntOrSlice = true ∨ (PyIndex.pint 0).isMatrix = true)
    ∧ Matrix.getitem 7
        (PyKey.tuple [PyIndex.pslice (some 1) (some 3), PyIndex.pint 0]) =
      Except.ok { operation := none,
                  inputs := [Value.vnode 7, Value.vstr "1:3", Value.vint 0],
                  outputType := OutputType.MATRIX,
                  isBrackets := true, isLeftBrackets := false,
                  consumers := [] } :=
  ⟨Or.inl rfl, Or.inl rfl, by
    rw [C4_getitem_bracket_node 7 (PyIndex.pslice (some 1) (some 3))
      (PyIndex.pint 0) (Or.inl rfl) (Or.inl rfl)]
    rfl⟩

/-- C7: `asType` fails when neither dtype nor vtype is given and when a given
dtype is not `matrix`, `frame` or `scalar` (with or without a vtype);
otherwise it returns a node of the facade matching the requested data kind
(Matrix when only a vtype is given) tagged `as.<dtype>`, `as.<vtype>`, or
`as.<dtype><<vtype>>`. -/
theorem C7_asType_dispatch (s : Nat) (dt vt : String)
    (hdt : dt ≠ "matrix" ∧ dt ≠ "frame" ∧ dt ≠ "scalar") :
    Matrix.asType s none none =
      Except.error "you must specify the target data type and/or value type"
    ∧ Matrix.asType s (some dt) none =
        Except.error "invalid data type: use matrix, frame, or scalar"
    ∧ Matrix.asType s (some dt) (some vt) =
        Except.error "invalid data type: use matrix, frame, or scalar"
    ∧ Matrix.asType s (some "matrix") none =
        Except.ok (matrixNode "as.matrix" [Value.vnode s])
    ∧ Matrix.asType s (some "frame") none =
        Except.ok (frameNode "as.frame" [Value.vnode s])
    ∧ Matrix.asType s (some "scalar") none =
        Except.ok (scalarNode "as.scalar" [Value.vnode s])
    ∧ Matrix.asType s none (some vt) =
        Except.ok (matrixNode ("as." ++ vt) [Value.vnode s])
    ∧ Matrix.asType s (some "matrix") (some vt) =
        Except.ok (matrixNode ("as.matrix<" ++ vt ++ ">") [Value.vnode s])
    ∧ Matrix.asType s (some "frame") (some vt) =
        Except.ok (frameNode ("as.frame<" ++ vt ++ ">") [Value.vnode s])
    ∧ Matrix.asType s (some "scalar") (some vt) =
        Except.ok (scalarNode ("as.scalar<" ++ vt ++ ">") [Value.vnode s]) := by
  obtain ⟨hm, hf, hs⟩ := hdt
  refine ⟨rfl, ?_, ?_, rfl, rfl, rfl, rfl, ?_, ?_, ?_⟩ <;>
    simp [Matrix.asType, hm, hf, hs]

/-- C7 witness: concrete dispatch at the invalid dtype `"tensor"` and the
vtype `"f64"`. -/
theorem C7_asType_dispatch_witness :
    (("tensor" : String) ≠ "matrix" ∧ ("tensor" : String) ≠ "frame"
        ∧ ("tensor" : String) ≠ "scalar")
    ∧ (Matrix.asType 2 none none =
        Except.error "you must specify the target data type and/or value type"
      ∧ Matrix.asType 2 (some "tensor") none =
          Except.error "invalid data type: use matrix, frame, or scalar"
      ∧ Matrix.asType 2 (some "tensor") (some "f64") =
          Except.error "invalid data type: use matrix, frame, or scalar"
      ∧ Matrix.asType 2 (some "matrix") none =
          Except.ok (matrixNode "as.matrix" [Value.vnode 2])
      ∧ Matrix.asType 2 (some "frame") none =
          Except.ok (frameNode "as.frame" [Value.vnode 2])
      ∧ Matrix.asType 2 (some "scalar") none =
          Except.ok (scalarNode "as.scalar" [Value.vnode 2])
      ∧ Matrix.asType 2 none (some "f64") =
          Except.ok (matrixNode ("as." ++ "f64") [Value.vnode 2])
      ∧ Matrix.asType 2 (some "matrix") (some "f64") =
          Except.ok (matrixNode ("as.matrix<" ++ "f64" ++ ">") [Value.vnode 2])
      ∧ Matrix.asType 2 (some "frame") (some "f64") =
          Except.ok (frameNode ("as.frame<" ++ "f64" ++ ">") [Value.vnode 2])
      ∧ Matrix.asType 2 (some "scalar") (some "f64") =
          Except.ok (scalarNode ("as.scalar<" ++ "f64" ++ ">") [Value.vnode 2])) :=
  ⟨by decide, C7_asType_dispatch 2 "tensor" "f64" (by decide)⟩

/-- C8: `bin` raises its validation error whenever exactly one of `Min` and
`Max` is set, and `order` raises its validation error whenever `colIdxs` and
`ascs` have different lengths; in the `Except` embedding the error carries no
node, so the errors occur before any node is constructed. -/
theorem C8_bin_order_validation (s : Nat) (numBins mn mx : Int)
    (colIdxs : List Int) (ascs : List Bool) (ret : Bool)
    (hlen : colIdxs.length ≠ ascs.length) :
    Matrix.bin s numBins (some mn) none =
      Except.error "bin: both min and max should be set, or both should be None"
    ∧ Matrix.bin s numBins none (some mx) =
        Except.error "bin: both min and max should be set, or both should be None"
    ∧ Matrix.order s colIdxs ascs ret =
        Except.error
          "order: the lists given for parameters colIdxs and ascs must have the same length" := by
  refine ⟨?_, ?_, ?_⟩ <;> simp [Matrix.bin, Matrix.order, hlen]

/-- C8 witness: `bin(numBins=5)` with only `Min=1` set, and an `order` call
with one column index but no sort directions. -/
theorem C8_bin_order_validation_witness :
    (([0] : List Int).length ≠ ([] : List Bool).length)
    ∧ (Matrix.bin 0 5 (some 1) none =
        Except.error "bin: both min and max should be set, or both should be None"
      ∧ Matrix.bin 0 5 none (some 1) =
          Except.error "bin: both min and max should be set, or both should be None"
      ∧ Matrix.order 0 [0] [] true =
          Except.error
            "order: the lists given for parameters colIdxs and ascs must have the same length") :=
  ⟨by decide, C8_bin_order_validation 0 5 1 1 [0] [] true (by decide)⟩

/-- C9 (counterexample): the reversed greater-or-equal variant does not carry
the comparison operator tag `">="`; the source tags it `">= "` with a trailing
space. -/
theorem C9_rge_tag_counterexample :
    (Matrix.rge 0 (Value.vint 1)).operation = some ">= "
      ∧ (">= " : String) ≠ ">=" :=
  ⟨rfl, by decide⟩

/-- C9 (amended): each comparison operator returns a Matrix-kind DAG node —
never a boolean — tagged with the comparison operator and inputs
`[self, other]`, operand order swapped for the reversed variants; the reversed
greater-or-equal variant carries the tag `">= "` with a trailing space instead
of `">="`. -/
theorem C9_comparisons_build_nodes (s : Nat) (other : Value) :
    (Matrix.eq s other).outputType = OutputType.MATRIX
    ∧ (Matrix.eq s other).operation = some "=="
    ∧ (Matrix.eq s other).inputs = [Value.vnode s, other]
    ∧ (Matrix.req s other).outputType = OutputType.MATRIX
    ∧ (Matrix.req s other).operation = some "=="
    ∧ (Matrix.req s other).inputs = [other, Value.vnode s]
    ∧ (Matrix.ne s other).outputType = OutputType.MATRIX
    ∧ (Matrix.ne s other).operation = some "!="
    ∧ (Matrix.ne s other).inputs = [Value.vnode s, other]
    ∧ (Matrix.rne s other).outputType = OutputType.MATRIX
    ∧ (Matrix.rne s other).operation = some "!="
    ∧ (Matrix.rne s other).inputs = [other, Value.vnode s]
    ∧ (Matrix.lt s other).outputType = OutputType.MATRIX
    ∧ (Matrix.lt s other).operation = some "<"
    ∧ (Matrix.lt s other).inputs = [Value.vnode s, other]
    ∧ (Matrix.rlt s other).outputType = OutputType.MATRIX
    ∧ (Matrix.rlt s other).operation = some "<"
    ∧ (Matrix.rlt s other).inputs = [other, Value.vnode s]
    ∧ (Matrix.le s other).outputType = OutputType.MATRIX
    ∧ (Matrix.le s other).operation = some "<="
    ∧ (Matrix.le s other).inputs = [Value.vnode s, other]
    ∧ (Matrix.rle s other).outputType = OutputType.MATRIX
    ∧ (Matrix.rle s other).operation = some "<="
    ∧ (Matrix.rle s other).inputs = [other, Value.vnode s]
    ∧ (Matrix.gt s other).outputType = OutputType.MATRIX
    ∧ (Matrix.gt s other).operation = some ">"
    ∧ (Matrix.gt s other).inputs = [Value.vnode s, other]
    ∧ (Matrix.rgt s other).outputType = OutputType.MATRIX
    ∧ (Matrix.rgt s other).operation = some ">"
    ∧ (Matrix.rgt s other).inputs = [other, Value.vnode s]
    ∧ (Matrix.ge s other).outputType = OutputType.MATRIX
    ∧ (Matrix.ge s other).operation = some ">="
    ∧ (Matrix.ge s other).inputs = [Value.vnode s, other]
    ∧ (Matrix.rge s other).outputType = OutputType.MATRIX
    ∧ (Matrix.rge s other).operation = some ">= "
    ∧ (Matrix.rge s other).inputs = [other, Value.vnode s] := by
  repeat constructor

/-- C10: when both `Min` and `Max` are supplied but either equals `0`, `bin`
raises no error, yet the truthiness test `if Max and Min` fails, so both
bounds are dropped and the node's inputs are `[self, numBins]` only. -/
theorem C10_bin_zero_bound_dropped (s : Nat) (numBins mn mx : Int)
    (h : mn = 0 ∨ mx = 0) :
    Matrix.bin s numBins (some mn) (some mx) =
      Except.ok (matrixNode "bin" [Value.vnode s, Value.vint numBins]) := by
  rcases h with h | h <;> subst h <;>
    simp [Matrix.bin, Matrix.pyTruthyOptInt]

/-- C10 witness: `bin(5, Min=0, Max=10)` silently drops both bounds. -/
theorem C10_bin_zero_bound_dropped_witness :
    ((0 : Int) = 0 ∨ (10 : Int) = 0)
    ∧ Matrix.bin 3 5 (some 0) (some 10) =
        Except.ok (matrixNode "bin" [Value.vnode 3, Value.vint 5]) :=
  ⟨Or.inl rfl, C10_bin_zero_bound_dropped 3 5 0 10 (Or.inl rfl)⟩

/-- C6: staging a local numpy array writes JSON data plus `.json.meta` sidecar
for string/unicode/object element kinds and comma-separated headerless CSV
plus `.csv.meta` sidecar otherwise, both sidecars holding
`{numRows, numCols, valueType}`; `valueType` follows the fixed dtype table,
with string dtypes mapping to `"str"` and every unmapped dtype to
`"object"`. -/
theorem C6_local_data_staging (tmp vn : String) (rows cols : Nat)
    (d : NpDtype) :
    ((d.kind = 'U' ∨ d.kind = 'S' ∨ d.kind = 'O') →
      stageLocalData tmp vn rows cols d =
        { dataPath := tmp ++ "/" ++ vn ++ ".json",
          format := StageFormat.jsonDump,
          metaPath := tmp ++ "/" ++ vn ++ ".json.meta",
          meta := { numRows := rows, numCols := cols,
                    valueType := getDType d } })
    ∧ (¬ (d.kind = 'U' ∨ d.kind = 'S' ∨ d.kind = 'O') →
      stageLocalData tmp vn rows cols d =
        { dataPath := tmp ++ "/" ++ vn ++ ".csv",
          format := StageFormat.csvCommaNoHeader,
          metaPath := tmp ++ "/" ++ vn ++ ".csv.meta",
          meta := { numRows := rows, numCols := cols,
                    valueType := getDType d } })
    ∧ getDType NpDtype.float32 = "f32"
    ∧ getDType NpDtype.float64 = "f64"
    ∧ getDType NpDtype.int16 = "si16"
    ∧ getDType NpDtype.int32 = "si32"
    ∧ getDType NpDtype.int64 = "si64"
    ∧ getDType NpDtype.uint8 = "ui8"
    ∧ getDType NpDtype.uint16 = "ui16"
    ∧ getDType NpDtype.uint32 = "ui32"
    ∧ getDType NpDtype.uint64 = "ui64"
    ∧ getDType NpDtype.bytesS = "str"
    ∧ getDType NpDtype.unicodeU = "str"
    ∧ (d ∉ [NpDtype.float32, NpDtype.float64, NpDtype.int16, NpDtype.int32,
            NpDtype.int64, NpDtype.uint8, NpDtype.uint16, NpDtype.uint32,
            NpDtype.uint64, NpDtype.bytesS, NpDtype.unicodeU] →
        getDType d = "object") := by
  refine ⟨?_, ?_, by decide, by decide, by decide, by decide, by decide,
    by decide, by decide, by decide, by decide, by decide, by decide, ?_⟩
  · intro h
    simp [stageLocalData, h]
  · intro h
    simp [stageLocalData, h]
  · intro h
    simp only [List.mem_cons, List.mem_singleton, not_or] at h
    obtain ⟨e1, e2, e3, e4, e5, e6, e7, e8, e9, e10, e11⟩ := h
    simp [getDType, e1, e2, e3, e4, e5, e6, e7, e8, e9, e10, e11]

/-- C6 witness: a float64 array stages to CSV with `valueType="f64"`, a
unicode-string array stages to JSON with `valueType="str"`, and an unmapped
half-precision dtype falls back to `valueType="object"`. -/
theorem C6_local_data_staging_witness :
    (¬ (NpDtype.float64.kind = 'U' ∨ NpDtype.float64.kind = 'S'
          ∨ NpDtype.float64.kind = 'O')
      ∧ stageLocalData "tmpdir" "V1" 2 3 NpDtype.float64 =
          { dataPath := "tmpdir/V1.csv",
            format := StageFormat.csvCommaNoHeader,
            metaPath := "tmpdir/V1.csv.meta",
            meta := { numRows := 2, numCols := 3, valueType := "f64" } })
    ∧ ((NpDtype.unicodeU.kind = 'U' ∨ NpDtype.unicodeU.kind = 'S'
          ∨ NpDtype.unicodeU.kind = 'O')
      ∧ stageLocalData "tmpdir" "V2" 2 3 NpDtype.unicodeU =
          { dataPath := "tmpdir/V2.json",
            format := StageFormat.jsonDump,
            metaPath := "tmpdir/V2.json.meta",
            meta := { numRows := 2, numCols := 3, valueType := "str" } })
    ∧ (NpDtype.other 'f' "float16" ∉ [NpDtype.float32, NpDtype.float64,
          NpDtype.int16, NpDtype.int32, NpDtype.int64, NpDtype.uint8,
          NpDtype.uint16, NpDtype.uint32, NpDtype.uint64, NpDtype.bytesS,
          NpDtype.unicodeU]
      ∧ getDType (NpDtype.other 'f' "float16") = "object") := by
  refine ⟨⟨by decide, ?_⟩, ⟨by decide, ?_⟩, ⟨by decide, ?_⟩⟩
  · have h := (C6_local_data_staging "tmpdir" "V1" 2 3 NpDtype.float64).2.1
      (by decide)
    rw [h]; decide
  · have h := (C6_local_data_staging "tmpdir" "V2" 2 3 NpDtype.unicodeU).1
      (by decide)
    rw [h]; decide
  · exact (C6_local_data_staging "tmpdir" "V0" 0 0
      (NpDtype.other 'f' "float16")).2.2.2.2.2.2.2.2.2.2.2.2.2 (by decide)

/-- C3: the two-dimension arity check fails on both read and write, and the
write-side component check rejects anything that is not an integer or a slice
(a Matrix node included); but the read-side component check is the Python
expression `not (a or b, c)` — `not` of a two-element tuple, always falsy — so
a read never raises the component type error: a string component slips
through and is wired into the bracket node, where the claim demands a type
error. -/
theorem C3_read_component_check_unreachable :
    Matrix.getitem 0 (PyKey.single (PyIndex.pint 0)) =
      Except.error "you must specify exactly two dimensions"
    ∧ Matrix.getitem 0 (PyKey.tuple [PyIndex.pint 0]) =
        Except.error "you must specify exactly two dimensions"
    ∧ validateWriteKey (PyKey.single (PyIndex.pint 0)) =
        Except.error "you must specify exactly two dimensions"
    ∧ validateWriteKey (PyKey.tuple [PyIndex.pint 0]) =
        Except.error "you must specify exactly two dimensions"
    ∧ validateWriteKey (PyKey.tuple [PyIndex.pother "foo", PyIndex.pint 0]) =
        Except.error "keys must be an integer or a slice"
    ∧ validateWriteKey (PyKey.tuple [PyIndex.pnode 1, PyIndex.pint 0]) =
        Except.error "keys must be an integer or a slice"
    ∧ Matrix.getitem 0 (PyKey.tuple [PyIndex.pother "foo", PyIndex.pint 0]) =
        Except.ok { operation := none,
                    inputs := [Value.vnode 0, Value.vstr "foo", Value.vint 0],
                    outputType := OutputType.MATRIX,
                    isBrackets := true, isLeftBrackets := false,
                    consumers := [] } :=
  ⟨rfl, rfl, rfl, rfl, rfl, rfl, rfl⟩

/-- Consumer registration never changes the arena size. -/
theorem registerConsumers_length (c : Nat) (ins : List Value) (g : Graph) :
    (registerConsumers g c ins).nodes.length = g.nodes.length := by
  induction ins generalizing g with
  | nil => rfl
  | cons w rest ih =>
    cases w with
    | vnode i =>
      rw [show registerConsumers g c (Value.vnode i :: rest)
          = registerConsumers (g.set i ((g.get i).addConsumer c)) c rest
        from rfl, ih, Graph.length_set]
    | vint x => exact ih g
    | vstr x => exact ih g
    | vbool x => exact ih g

/-- Computing the registration performed by the `__setitem__` write node when
the assigned value is itself a node: both the shadow (first) and the value
node (second) gain the consumer; the index expressions, never node-valued for
a valid write key, register nothing. -/
theorem registerConsumers_setitem_node (g : Graph) (c n b : Nat)
    (ri ci : Value) (hri : ri.isNodeRef = false) (hci : ci.isNodeRef = false) :
    registerConsumers g c [Value.vnode n, Value.vnode b, ri, ci]
      = (g.set n ((g.get n).addConsumer c)).set b
          (((g.set n ((g.get n).addConsumer c)).get b).addConsumer c) := by
  cases ri <;> cases ci <;> first | rfl | simp_all [Value.isNodeRef]

/-- Computing the registration performed by the `__setitem__` write node when
the assigned value is a literal: only the shadow gains the consumer. -/
theorem registerConsumers_setitem_nonnode (g : Graph) (c n : Nat)
    (v ri ci : Value) (hv : v.isNodeRef = false)
    (hri : ri.isNodeRef = false) (hci : ci.isNodeRef = false) :
    registerConsumers g c [Value.vnode n, v, ri, ci]
      = g.set n ((g.get n).addConsumer c) := by
  cases v <;> cases ri <;> cases ci <;> first | rfl | simp_all [Value.isNodeRef]

/-- An integer or slice key component never encodes to a node reference. -/
theorem encodeIndex_not_node (k : PyIndex) (h : k.isIntOrSlice = true) :
    (encodeIndex k).isNodeRef = false := by
  cases k <;> simp_all [PyIndex.isIntOrSlice, encodeIndex, Value.isNodeRef]

/-- The rewrite grows the arena by exactly the shadow slot. -/
theorem setitemRewrite_length (g : Graph) (a : Nat) (v ri ci : Value) :
    (setitemRewrite g a v ri ci).nodes.length = g.nodes.length + 1 := by
  simp only [setitemRewrite]
  rw [Graph.length_set, registerConsumers_length, redirect_fold_length]
  simp

/-- The shadow slot holds the node's previous state, extended by the
rewritten handle registering itself as a consumer (the assigned value can
never reference the still-unallocated shadow slot). -/
theorem setitemRewrite_get_shadow (g : Graph) (a : Nat) (v ri ci : Value)
    (ha : a < g.nodes.length)
    (hnmem : g.nodes.length ∉ (g.get a).consumers)
    (hvn : v ≠ Value.vnode g.nodes.length)
    (hri : ri.isNodeRef = false) (hci : ci.isNodeRef = false) :
    (setitemRewrite g a v ri ci).get g.nodes.length
      = (g.get a).addConsumer a := by
  have hne : a ≠ g.nodes.length := fun hh => Nat.lt_irrefl a (hh ▸ ha)
  have hg2len : ((g.get a).consumers.foldl
      (redirectStep g.nodes.length a)
      (Graph.mk (g.nodes ++ [g.get a]))).nodes.length
      = g.nodes.length + 1 := by
    rw [redirect_fold_length]; simp
  have hg2n : ((g.get a).consumers.foldl
      (redirectStep g.nodes.length a)
      (Graph.mk (g.nodes ++ [g.get a]))).get g.nodes.length = g.get a := by
    rw [redirect_fold_get_notmem _ _ _ _ _ hnmem]
    exact Graph.get_append_last g (g.get a)
  simp only [setitemRewrite]
  rw [Graph.get_set_ne _ _ _ _ hne]
  cases v with
  | vnode b =>
    have hbn : b ≠ g.nodes.length := fun hh => hvn (by rw [hh])
    rw [registerConsumers_setitem_node _ _ _ _ _ _ hri hci,
      Graph.get_set_ne _ _ _ _ hbn,
      Graph.get_set_self _ _ _ (by rw [hg2len]; omega), hg2n]
  | vint x =>
    rw [registerConsumers_setitem_nonnode _ _ _ (Value.vint x) _ _ rfl hri hci,
      Graph.get_set_self _ _ _ (by rw [hg2len]; omega), hg2n]
  | vstr x =>
    rw [registerConsumers_setitem_nonnode _ _ _ (Value.vstr x) _ _ rfl hri hci,
      Graph.get_set_self _ _ _ (by rw [hg2len]; omega), hg2n]
  | vbool x =>
    rw [registerConsumers_setitem_nonnode _ _ _ (Value.vbool x) _ _ rfl hri hci,
      Graph.get_set_self _ _ _ (by rw [hg2len]; omega), hg2n]

/-- The handle's slot holds the left-brackets write node after the rewrite. -/
theorem setitemRewrite_get_self (g : Graph) (a : Nat) (v ri ci : Value)
    (ha : a < g.nodes.length) :
    (setitemRewrite g a v ri ci).get a
      = { operation := none,
          inputs := [Value.vnode g.nodes.length, v, ri, ci],
          outputType := OutputType.MATRIX,
          isBrackets := false, isLeftBrackets := true, consumers := [] } := by
  simp only [setitemRewrite]
  apply Graph.get_set_self
  rw [registerConsumers_length, redirect_fold_length]
  simp only [List.length_append, List.length_cons, List.length_nil]
  omega

/-- Every consumer of the assigned node has its input references redirected to
the shadow predecessor by the rewrite; its consumer list additionally gains
the rewritten handle exactly when the assigned value references that
consumer. -/
theorem setitemRewrite_get_consumer (g : Graph) (a : Nat) (v ri ci : Value)
    (c : Nat) (ha : a < g.nodes.length) (hc : c ∈ (g.get a).consumers)
    (hca : c ≠ a) (hclt : c < g.nodes.length)
    (hri : ri.isNodeRef = false) (hci : ci.isNodeRef = false) :
    (setitemRewrite g a v ri ci).get c
      = { (g.get c).updateInput g.nodes.length a with
          consumers := (g.get c).consumers
            ++ (if v = Value.vnode c then [a] else []) } := by
  have hac : a ≠ c := fun hh => hca hh.symm
  have hnc : g.nodes.length ≠ c := fun hh => Nat.lt_irrefl c (hh ▸ hclt)
  have hna : g.nodes.length ≠ a := fun hh => Nat.lt_irrefl a (hh ▸ ha)
  have hg2len : ((g.get a).consumers.foldl
      (redirectStep g.nodes.length a)
      (Graph.mk (g.nodes ++ [g.get a]))).nodes.length
      = g.nodes.length + 1 := by
    rw [redirect_fold_length]; simp
  have hg2c : ((g.get a).consumers.foldl
      (redirectStep g.nodes.length a)
      (Graph.mk (g.nodes ++ [g.get a]))).get c
      = (g.get c).updateInput g.nodes.length a := by
    rw [redirect_fold_get_mem _ _ hna _ _ _ hc (by simp; omega),
      Graph.get_append_lt _ _ _ hclt]
  simp only [setitemRewrite]
  rw [Graph.get_set_ne _ _ _ _ hac]
  cases v with
  | vnode b =>
    rw [registerConsumers_setitem_node _ _ _ _ _ _ hri hci]
    by_cases hbc : b = c
    · subst hbc
      rw [Graph.get_set_self _ _ _ (by rw [Graph.length_set, hg2len]; omega),
        Graph.get_set_ne _ _ _ _ hnc, hg2c]
      simp [Node.addConsumer, Node.updateInput]
    · rw [Graph.get_set_ne _ _ _ _ hbc, Graph.get_set_ne _ _ _ _ hnc, hg2c]
      simp [hbc, Node.updateInput]
  | vint x =>
    rw [registerConsumers_setitem_nonnode _ _ _ (Value.vint x) _ _ rfl hri hci,
      Graph.get_set_ne _ _ _ _ hnc, hg2c]
    simp [Node.updateInput]
  | vstr x =>
    rw [registerConsumers_setitem_nonnode _ _ _ (Value.vstr x) _ _ rfl hri hci,
      Graph.get_set_ne _ _ _ _ hnc, hg2c]
    simp [Node.updateInput]
  | vbool x =>
    rw [registerConsumers_setitem_nonnode _ _ _ (Value.vbool x) _ _ rfl hri hci,
      Graph.get_set_ne _ _ _ _ hnc, hg2c]
    simp [Node.updateInput]

/-- When the assigned value references a node that is not among the assigned
node's consumers, building the write node still registers the rewritten
handle in that node's consumer list, its other fields untouched. -/
theorem setitemRewrite_get_valueNode (g : Graph) (a b : Nat) (ri ci : Value)
    (hb : b < g.nodes.length) (hnmem : b ∉ (g.get a).consumers) (hba : b ≠ a)
    (hri : ri.isNodeRef = false) (hci : ci.isNodeRef = false) :
    (setitemRewrite g a (Value.vnode b) ri ci).get b
      = (g.get b).addConsumer a := by
  have hab : a ≠ b := fun hh => hba hh.symm
  have hnb : g.nodes.length ≠ b := fun hh => Nat.lt_irrefl b (hh ▸ hb)
  simp only [setitemRewrite]
  rw [Graph.get_set_ne _ _ _ _ hab,
    registerConsumers_setitem_node _ _ _ _ _ _ hri hci,
    Graph.get_set_self _ _ _ (by
      rw [Graph.length_set, redirect_fold_length]
      simp only [List.length_append, List.length_cons, List.length_nil]
      omega),
    Graph.get_set_ne _ _ _ _ hnb,
    redirect_fold_get_notmem _ _ _ _ _ hnmem,
    Graph.get_append_lt _ _ _ hb]

/-- C1: executing `A[k0, k1] = v` on node `a` of graph `g` (with a valid
write key and a value that, if node-valued, references an existing node)
succeeds and produces a graph with one extra slot in which
(1) the fresh slot `g.nodes.length` — the shadow predecessor — holds a copy of
`a`'s previous operation, inputs, output kind and bracket flags (its consumer
list additionally records the rewritten handle, which now consumes it);
(2) every consumer in `a`'s previous consumer list has each input reference to
`a` redirected to the shadow predecessor, its consumer list gaining the
rewritten handle exactly when the assigned value references that consumer and
all its other fields unchanged;
(3) a node referenced by the assigned value that is not a consumer likewise
gains the rewritten handle in its consumer list;
(4) slot `a` now holds a left-brackets node: operation `None`,
`is_left_brackets=true`, inputs
`[shadow predecessor, value, row-index, col-index]`.
Hence consumers wired before the assignment still reference the pre-assignment
state (now living in the shadow slot), while anything built from the handle
`a` afterwards references the write operation. -/
theorem C1_setitem_inplace_rewrite (g : Graph) (a : Nat) (k0 k1 : PyIndex)
    (v : Value) (ha : a < g.nodes.length)
    (h0 : k0.isIntOrSlice = true) (h1 : k1.isIntOrSlice = true)
    (hcons : ∀ c ∈ (g.get a).consumers, c < g.nodes.length)
    (hv : ∀ b, v = Value.vnode b → b < g.nodes.length) :
    ∃ g' : Graph,
      Matrix.setitem g a (PyKey.tuple [k0, k1]) v = Except.ok g'
      ∧ g'.nodes.length = g.nodes.length + 1
      ∧ (g'.get g.nodes.length).operation = (g.get a).operation
      ∧ (g'.get g.nodes.length).inputs = (g.get a).inputs
      ∧ (g'.get g.nodes.length).outputType = (g.get a).outputType
      ∧ (g'.get g.nodes.length).isBrackets = (g.get a).isBrackets
      ∧ (g'.get g.nodes.length).isLeftBrackets = (g.get a).isLeftBrackets
      ∧ (g'.get g.nodes.length).consumers = (g.get a).consumers ++ [a]
      ∧ (∀ c ∈ (g.get a).consumers, c ≠ a →
          g'.get c = { g.get c with
            inputs := (g.get c).inputs.map (fun w =>
              if w = Value.vnode a then Value.vnode g.nodes.length else w),
            consumers := (g.get c).consumers
              ++ (if v = Value.vnode c then [a] else []) })
      ∧ (∀ b, v = Value.vnode b → b ∉ (g.get a).consumers → b ≠ a →
          (g'.get b).consumers = (g.get b).consumers ++ [a])
      ∧ g'.get a = { operation := none,
                     inputs := [Value.vnode g.nodes.length, v,
                                encodeIndex k0, encodeIndex k1],
                     outputType := OutputType.MATRIX,
                     isBrackets := false, isLeftBrackets := true,
                     consumers := [] } := by
  have hval : validateWriteKey (PyKey.tuple [k0, k1]) =
      Except.ok (encodeIndex k0, encodeIndex k1) := by
    simp [validateWriteKey, h0, h1]
  have hri : (encodeIndex k0).isNodeRef = false := encodeIndex_not_node k0 h0
  have hci : (encodeIndex k1).isNodeRef = false := encodeIndex_not_node k1 h1
  have hnmem : g.nodes.length ∉ (g.get a).consumers := fun hm =>
    Nat.lt_irrefl g.nodes.length (hcons _ hm)
  have hvn : v ≠ Value.vnode g.nodes.length := fun hh =>
    Nat.lt_irrefl g.nodes.length (hv _ hh)
  have hshadow := setitemRewrite_get_shadow g a v (encodeIndex k0)
    (encodeIndex k1) ha hnmem hvn hri hci
  refine ⟨setitemRewrite g a v (encodeIndex k0) (encodeIndex k1),
    by simp [Matrix.setitem, hval],
    setitemRewrite_length g a v (encodeIndex k0) (encodeIndex k1),
    by rw [hshadow]; rfl, by rw [hshadow]; rfl, by rw [hshadow]; rfl,
    by rw [hshadow]; rfl, by rw [hshadow]; rfl, by rw [hshadow]; rfl,
    ?_, ?_, setitemRewrite_get_self g a v (encodeIndex k0) (encodeIndex k1) ha⟩
  · intro c hc hca
    rw [setitemRewrite_get_consumer g a v (encodeIndex k0) (encodeIndex k1) c
      ha hc hca (hcons _ hc) hri hci]
    rfl
  · intro b hh hbnot hba
    subst hh
    rw [setitemRewrite_get_valueNode g a b (encodeIndex k0) (encodeIndex k1)
      (hv b rfl) hbnot hba hri hci]
    rfl

/-- Example arena for the C1 witness: node 0 is a `rand` matrix whose single
consumer is node 1, a `sqrt` node taking node 0 as input. -/
def exampleArena : Graph :=
  ⟨[{ operation := some "rand", inputs := [], outputType := OutputType.MATRIX,
      isBrackets := false, isLeftBrackets := false, consumers := [1] },
    { operation := some "sqrt", inputs := [Value.vnode 0],
      outputType := OutputType.MATRIX, isBrackets := false,
      isLeftBrackets := false, consumers := [] }]⟩

/-- C1 witness: `A[0, 0] = B` on the two-node example arena, where the
assigned value `B` is node 1 — itself a consumer of `A` — so the redirected
consumer also gains the rewritten handle in its consumer list. -/
theorem C1_setitem_inplace_rewrite_witness :
    0 < exampleArena.nodes.length
    ∧ (PyIndex.pint 0).isIntOrSlice = true
    ∧ (∀ c ∈ (exampleArena.get 0).consumers, c < exampleArena.nodes.length)
    ∧ (∀ b, Value.vnode 1 = Value.vnode b → b < exampleArena.nodes.length)
    ∧ ∃ g' : Graph,
        Matrix.setitem exampleArena 0
          (PyKey.tuple [PyIndex.pint 0, PyIndex.pint 0]) (Value.vnode 1)
          = Except.ok g'
        ∧ g'.nodes.length = exampleArena.nodes.length + 1
        ∧ (g'.get exampleArena.nodes.length).operation
            = (exampleArena.get 0).operation
        ∧ (g'.get exampleArena.nodes.length).inputs
            = (exampleArena.get 0).inputs
        ∧ (g'.get exampleArena.nodes.length).outputType
            = (exampleArena.get 0).outputType
        ∧ (g'.get exampleArena.nodes.length).isBrackets
            = (exampleArena.get 0).isBrackets
        ∧ (g'.get exampleArena.nodes.length).isLeftBrackets
            = (exampleArena.get 0).isLeftBrackets
        ∧ (g'.get exampleArena.nodes.length).consumers
            = (exampleArena.get 0).consumers ++ [0]
        ∧ (∀ c ∈ (exampleArena.get 0).consumers, c ≠ 0 →
            g'.get c = { exampleArena.get c with
              inputs := (exampleArena.get c).inputs.map (fun w =>
                if w = Value.vnode 0 then
                  Value.vnode exampleArena.nodes.length
                else w),
              consumers := (exampleArena.get c).consumers
                ++ (if Value.vnode 1 = Value.vnode c then [0] else []) })
        ∧ (∀ b, Value.vnode 1 = Value.vnode b →
            b ∉ (exampleArena.get 0).consumers → b ≠ 0 →
            (g'.get b).consumers = (exampleArena.get b).consumers ++ [0])
        ∧ g'.get 0 = { operation := none,
                       inputs := [Value.vnode exampleArena.nodes.length,
                                  Value.vnode 1, encodeIndex (PyIndex.pint 0),
                                  encodeIndex (PyIndex.pint 0)],
                       outputType := OutputType.MATRIX,
                       isBrackets := false, isLeftBrackets := true,
                       consumers := [] } :=
  ⟨by decide, rfl, by decide, by intro b hh; cases hh; decide,
    C1_setitem_inplace_rewrite exampleArena 0 (PyIndex.pint 0)
      (PyIndex.pint 0) (Value.vnode 1) (by decide) rfl rfl (by decide)
      (by intro b hh; cases hh; decide)⟩

end Daphne
